import Mathlib

/-!
Shallow embedding of the Cloudemy backend submission service
(app/routers/submissions.py and app/routers/internal.py).

The Mongo collection is modelled as a list of documents keyed by an id
field; a document is a record of optional fields, where none models a
field absent from the stored dictionary.  Python truthiness of values
read with dict.get is modelled explicitly.  I/O failures of the store
insert and of the queue publish during create are modelled by boolean
failure flags; the current time passed to the result callback is a Nat
parameter; the freshly generated ObjectId of create is a String
parameter.
-/

namespace Cloudemy

/-- A (case, message) feedback entry; caseName embeds the field named
case in the source, which is a reserved word in Lean. -/
structure FeedbackItem where
  caseName : String
  message : String
deriving DecidableEq

/-- The metrics sub-document, with the pydantic defaults of the source. -/
structure Metrics where
  timeMs : Int := 0
  memoryMB : Int := 0
deriving DecidableEq

/-- A stored submission document.  Every field but the id is optional:
none models a key absent from the Mongo dictionary.  finalize_note is
doubly optional because the finalize handler can store a null note. -/
structure Doc where
  id : String
  user_id : Option String := none
  assignment_id : String := ""
  language : Option String := none
  code : Option String := none
  status : Option String := none
  score : Option Rat := none
  fail_tags : Option (List String) := none
  feedback : Option (List FeedbackItem) := none
  metrics : Option Metrics := none
  finalized : Option Bool := none
  finalize_note : Option (Option String) := none
  attemptNo : Option Nat := none
  created_at : Option Nat := none
  updated_at : Option Nat := none
deriving DecidableEq

/-- The submissions collection: a list of documents, looked up by id. -/
abbrev Store := List Doc

/-- find_one on the id key: first document whose id matches. -/
def findOne : Store → String → Option Doc
  | [], _ => none
  | d :: rest, i => if d.id = i then some d else findOne rest i

/-- insert_one: Mongo enforces a unique index on the id, so inserting a
duplicate id fails (none); otherwise the document is appended. -/
def insertOne (s : Store) (d : Doc) : Option Store :=
  if (findOne s d.id).isSome then none else some (s ++ [d])

/-- delete_one on the id key: removes the first matching document. -/
def deleteOne : Store → String → Store
  | [], _ => []
  | d :: rest, i => if d.id = i then rest else d :: deleteOne rest i

/-- update_one with filter p and a set-patch f: updates the first
matching document, returning (matched_count, new collection).  The
filter and the patch are applied in one step, which models the atomic
conditional write of the store. -/
def updateOne (p : Doc → Prop) [DecidablePred p] (f : Doc → Doc) : Store → Nat × Store
  | [] => (0, [])
  | d :: rest =>
    if p d then (1, f d :: rest)
    else ((updateOne p f rest).1, d :: (updateOne p f rest).2)

/-- An HTTPException: status code and detail string. -/
structure HErr where
  status_code : Nat
  detail : String
deriving DecidableEq

/-- Request body of POST /submissions. -/
structure SubmissionCreate where
  assignment_id : String
  language : String := "python"
  code : String
deriving DecidableEq

/-- Response body of POST /submissions. -/
structure SubmissionQueued where
  submission_id : String
  status : String := "QUEUED"
  attemptNo : Nat := 1
deriving DecidableEq

/-- Response body of GET /submissions/{id}. -/
structure SubmissionOut where
  submission_id : String
  user_id : Option String := none
  assignment_id : String
  language : String := "python"
  status : String
  score : Rat := 0
  fail_tags : List String := []
  feedback : List FeedbackItem := []
  metrics : Metrics := {}
  finalized : Bool := false
deriving DecidableEq

/-- Response body of POST /submissions/{id}/finalize. -/
structure FinalizeOut where
  submission_id : String
  status : String := "FINALIZED"
  finalized : Bool := true
deriving DecidableEq

/-- Request body of the result callback. -/
structure ResultIn where
  status : String
  score : Rat := 0
  fail_tags : List String := []
  feedback : List FeedbackItem := []
  metrics : Metrics := {}
deriving DecidableEq

/-- Response body of the result callback. -/
structure OkOut where
  ok : Bool := true
  submission_id : String
  status : String
deriving DecidableEq

/-- The job descriptor published to the Redis queue on create. -/
structure QueueMsg where
  submission_id : String
  assignment_id : String
  language : String
deriving DecidableEq

/-- The zero-valued default metrics dictionary of the source. -/
def default_metrics : Metrics := { timeMs := 0, memoryMB := 0 }

/-- Python x or 0 on a numeric value: zero is falsy, so the expression
always equals x. -/
def pyOrZero (x : Rat) : Rat := if x = 0 then 0 else x

/-- Python xs or [] on a list value: the empty list is falsy, so the
expression always equals xs. -/
def pyOrList {α : Type} (xs : List α) : List α := if xs.isEmpty then [] else xs

/-- Python truthiness of an optional header string: None and the empty
string are falsy. -/
def pyTruthyStr : Option String → Bool
  | none => false
  | some t => t ≠ ""

/-- doc_to_out of the source: builds the SubmissionOut view of a stored
document, substituting the pydantic defaults for absent fields and the
zero-valued default metrics for an absent metrics sub-document. -/
def doc_to_out (d : Doc) : SubmissionOut :=
  { submission_id := d.id
    user_id := d.user_id
    assignment_id := d.assignment_id
    language := d.language.getD "python"
    status := d.status.getD "QUEUED"
    score := pyOrZero (d.score.getD 0)
    fail_tags := d.fail_tags.getD []
    feedback := d.feedback.getD []
    metrics := d.metrics.getD default_metrics
    finalized := d.finalized.getD false }

/-- GET /submissions/{id}: a pure read returning the view or 404.  The
handler performs no store write, which the type makes explicit: no
store is returned. -/
def get_submission (s : Store) (i : String) : Except HErr SubmissionOut :=
  match findOne s i with
  | none => Except.error ⟨404, "submission not found"⟩
  | some d => Except.ok (doc_to_out d)

/-- The document inserted by create_submission: status QUEUED, zeroed
score and metrics, empty tags and feedback, finalized false, the demo
user u1, attempt 1.  The source writes no created_at or updated_at key. -/
def createDoc (payload : SubmissionCreate) (newId : String) : Doc :=
  { id := newId
    user_id := some "u1"
    assignment_id := payload.assignment_id
    language := some payload.language
    code := some payload.code
    status := some "QUEUED"
    score := some 0
    fail_tags := some []
    feedback := some []
    metrics := some default_metrics
    finalized := some false
    finalize_note := none
    attemptNo := some 1
    created_at := none
    updated_at := none }

/-- POST /submissions: insert the new document, then publish the job
descriptor (Redis LPUSH, modelled as cons onto the message list).  A
store failure (dbFail, or a duplicate id) yields 503 database
unavailable with nothing published; a queue failure (pubFail) triggers
the compensating delete_one and yields 503 queue unavailable. -/
def create_submission (s : Store) (q : List QueueMsg) (payload : SubmissionCreate)
    (newId : String) (dbFail pubFail : Bool) :
    Except HErr SubmissionQueued × Store × List QueueMsg :=
  let doc := createDoc payload newId
  match (if dbFail then none else insertOne s doc) with
  | none => (Except.error ⟨503, "database unavailable"⟩, s, q)
  | some s1 =>
    if pubFail then
      (Except.error ⟨503, "queue unavailable"⟩, deleteOne s1 newId, q)
    else
      (Except.ok { submission_id := newId, status := "QUEUED", attemptNo := 1 },
       s1,
       { submission_id := newId, assignment_id := payload.assignment_id,
         language := payload.language } :: q)

/-- The filter of the finalize conditional write: same id and finalized
not true (the Mongo ne-true condition also matches an absent field). -/
abbrev finalizePred (i : String) (d : Doc) : Prop :=
  d.id = i ∧ ¬ d.finalized = some true

/-- The set-patch of the finalize conditional write: status FINALIZED,
finalized true, finalize_note from the request body.  No updated_at. -/
def finalizeSet (note : Option String) (d : Doc) : Doc :=
  { d with status := some "FINALIZED", finalized := some true,
           finalize_note := some note }

/-- POST /submissions/{id}/finalize, with the read and the conditional
write taken against possibly different store snapshots, so that the
race branch (conditional write matching zero documents) is expressible;
the sequential handler is the diagonal finalize_submission below.
Reads the document (404 if absent); returns the idempotent success if
already finalized; otherwise issues the single conditional write with
filter finalizePred and patch finalizeSet, and on matched_count zero
re-reads: finalized means idempotent success, otherwise 409. -/
def finalize_submission_at (sRead sWrite : Store) (i : String) (note : Option String) :
    Except HErr FinalizeOut × Store :=
  match findOne sRead i with
  | none => (Except.error ⟨404, "submission not found"⟩, sWrite)
  | some d =>
    if d.finalized = some true then
      (Except.ok { submission_id := i }, sWrite)
    else
      let r := updateOne (finalizePred i) (finalizeSet note) sWrite
      if r.1 = 0 then
        match findOne r.2 i with
        | none => (Except.error ⟨404, "submission not found"⟩, r.2)
        | some d2 =>
          if d2.finalized = some true then
            (Except.ok { submission_id := i }, r.2)
          else
            (Except.error ⟨409, "finalize conflict"⟩, r.2)
      else
        (Except.ok { submission_id := i }, r.2)

/-- The sequential finalize handler: read and write on the same store. -/
def finalize_submission (s : Store) (i : String) (note : Option String) :
    Except HErr FinalizeOut × Store :=
  finalize_submission_at s s i note

/-- The set-patch of the result callback: status, score, fail_tags,
feedback, metrics from the payload plus a fresh updated_at; the Python
or-defaults on score and the lists are modelled faithfully. -/
def resultSet (payload : ResultIn) (now : Nat) (d : Doc) : Doc :=
  { d with
    status := some payload.status
    score := some (pyOrZero payload.score)
    fail_tags := some (pyOrList payload.fail_tags)
    feedback := some (pyOrList payload.feedback)
    metrics := some payload.metrics
    updated_at := some now }

/-- The filter of the result update: id only, unconditional overwrite. -/
abbrev idPred (i : String) (d : Doc) : Prop := d.id = i

/-- POST /internal/submissions/{id}/result: token check first (absent,
empty or wrong token yields 401 before any store access), then 404 if
the document is absent, the idempotent no-op if it is finalized or its
status is FINALIZED, 400 if the payload status is not an accepted
outcome, and otherwise the unconditional last-writer-wins overwrite. -/
def post_result_callback (s : Store) (i : String) (payload : ResultIn)
    (x_result_token : Option String) (secret : String) (now : Nat) :
    Except HErr OkOut × Store :=
  if pyTruthyStr x_result_token = false ∨ ¬ x_result_token = some secret then
    (Except.error ⟨401, "invalid result token"⟩, s)
  else
    match findOne s i with
    | none => (Except.error ⟨404, "submission not found"⟩, s)
    | some d =>
      if d.finalized = some true ∨ d.status = some "FINALIZED" then
        (Except.ok { ok := true, submission_id := i,
                     status := d.status.getD "FINALIZED" }, s)
      else if payload.status ≠ "COMPLETED" ∧ payload.status ≠ "FAILED" ∧
              payload.status ≠ "TIMEOUT" then
        (Except.error ⟨400, "invalid status"⟩, s)
      else
        (Except.ok { ok := true, submission_id := i, status := payload.status },
         (updateOne (idPred i) (resultSet payload now) s).2)

/-- One client-visible operation of the service, with its failure-flag,
identifier, token and clock parameters. -/
inductive Op where
  | create (payload : SubmissionCreate) (newId : String) (dbFail pubFail : Bool)
  | get (i : String)
  | result (i : String) (payload : ResultIn) (tok : Option String) (now : Nat)
  | finalize (i : String) (note : Option String)

/-- The store after one operation (get is a pure read). -/
def applyOp (secret : String) (s : Store) : Op → Store
  | Op.create payload newId dbFail pubFail =>
      (create_submission s [] payload newId dbFail pubFail).2.1
  | Op.get _ => s
  | Op.result i payload tok now => (post_result_callback s i payload tok secret now).2
  | Op.finalize i note => (finalize_submission s i note).2

/-- The store after a sequence of operations. -/
def applyOps (secret : String) : List Op → Store → Store
  | [], s => s
  | op :: rest, s => applyOps secret rest (applyOp secret s op)

/-- The documented invariant: a finalized document has status FINALIZED. -/
abbrev Inv (s : Store) : Prop :=
  ∀ d ∈ s, d.finalized = some true → d.status = some "FINALIZED"

end Cloudemy

namespace Cloudemy

theorem pyOrZero_eq (x : Rat) : pyOrZero x = x := by
  unfold pyOrZero
  split <;> simp_all

theorem pyOrList_eq {α : Type} (xs : List α) : pyOrList xs = xs := by
  unfold pyOrList
  split <;> simp_all

theorem findOne_id {s : Store} {i : String} {d : Doc} (h : findOne s i = some d) :
    d.id = i := by
  induction s with
  | nil => simp [findOne] at h
  | cons e rest ih =>
    by_cases he : e.id = i
    · simp [findOne, he] at h
      subst h
      exact he
    · simp [findOne, he] at h
      exact ih h

theorem findOne_append_left {s : Store} {i : String} {d : Doc} (t : Store)
    (h : findOne s i = some d) : findOne (s ++ t) i = some d := by
  induction s with
  | nil => simp [findOne] at h
  | cons e rest ih =>
    by_cases he : e.id = i <;> simp [findOne, he] at h ⊢
    · exact h
    · exact ih h

theorem findOne_append_none {s : Store} {i : String} (t : Store)
    (h : findOne s i = none) : findOne (s ++ t) i = findOne t i := by
  induction s with
  | nil => simp
  | cons e rest ih =>
    by_cases he : e.id = i <;> simp [findOne, he] at h ⊢
    exact ih h

theorem deleteOne_append_fresh {s : Store} {j : String} {d : Doc}
    (h : findOne s j = none) (hd : d.id = j) : deleteOne (s ++ [d]) j = s := by
  induction s with
  | nil => simp [deleteOne, hd]
  | cons e rest ih =>
    by_cases he : e.id = j <;> simp [findOne, he] at h
    simp [deleteOne, he, ih h]

theorem findOne_deleteOne_ne {s : Store} {i j : String} (h : i ≠ j) :
    findOne (deleteOne s j) i = findOne s i := by
  have hji : ¬ j = i := fun hc => h hc.symm
  induction s with
  | nil => simp [deleteOne]
  | cons e rest ih =>
    by_cases he : e.id = j
    · simp [deleteOne, findOne, he, hji]
    · by_cases hei : e.id = i <;>
        simp [deleteOne, findOne, he, hei, ih, h, hji]

theorem mem_deleteOne {s : Store} {j : String} {d : Doc}
    (h : d ∈ deleteOne s j) : d ∈ s := by
  induction s with
  | nil => simp [deleteOne] at h
  | cons e rest ih =>
    by_cases he : e.id = j <;> simp [deleteOne, he] at h
    · exact List.mem_cons_of_mem _ h
    · rcases h with h | h
      · exact h ▸ List.mem_cons_self _ _
      · exact List.mem_cons_of_mem _ (ih h)

theorem mem_updateOne {p : Doc → Prop} [DecidablePred p] {f : Doc → Doc}
    {s : Store} {d : Doc} (h : d ∈ (updateOne p f s).2) :
    d ∈ s ∨ ∃ e ∈ s, p e ∧ d = f e := by
  induction s with
  | nil => simp [updateOne] at h
  | cons e rest ih =>
    by_cases he : p e <;> simp [updateOne, he] at h
    · rcases h with h | h
      · exact Or.inr ⟨e, List.mem_cons_self _ _, he, h⟩
      · exact Or.inl (List.mem_cons_of_mem _ h)
    · rcases h with h | h
      · exact Or.inl (h ▸ List.mem_cons_self _ _)
      · rcases ih h with h1 | ⟨e1, he1, hp1, hd1⟩
        · exact Or.inl (List.mem_cons_of_mem _ h1)
        · exact Or.inr ⟨e1, List.mem_cons_of_mem _ he1, hp1, hd1⟩

theorem findOne_updateOne_ne {p : Doc → Prop} [DecidablePred p] {f : Doc → Doc}
    {s : Store} {i : String}
    (h : ∀ d, p d → ¬ d.id = i ∧ (f d).id = d.id) :
    findOne (updateOne p f s).2 i = findOne s i := by
  induction s with
  | nil => simp [updateOne]
  | cons e rest ih =>
    by_cases he : p e
    · have h1 := h e he
      have h2 : ¬ (f e).id = i := by rw [h1.2]; exact h1.1
      simp [updateOne, findOne, he, h1.1, h2]
    · by_cases hei : e.id = i <;> simp [updateOne, findOne, he, hei, ih]

theorem updateOne_idPred_mem {f : Doc → Doc} {s : Store} {i : String} {d0 d : Doc}
    (h : findOne s i = some d0) (hd : d ∈ (updateOne (idPred i) f s).2) :
    d ∈ s ∨ d = f d0 := by
  induction s with
  | nil => simp [findOne] at h
  | cons e rest ih =>
    by_cases he : e.id = i
    · simp [findOne, he] at h
      subst h
      simp [updateOne, idPred, he] at hd
      rcases hd with hd | hd
      · exact Or.inr hd
      · exact Or.inl (List.mem_cons_of_mem _ hd)
    · simp [findOne, he] at h
      simp [updateOne, idPred, he] at hd
      rcases hd with hd | hd
      · exact Or.inl (hd ▸ List.mem_cons_self _ _)
      · rcases ih h hd with h1 | h1
        · exact Or.inl (List.mem_cons_of_mem _ h1)
        · exact Or.inr h1

theorem updateOne_idPred_spec {f : Doc → Doc} {s : Store} {i : String} {d0 : Doc}
    (h : findOne s i = some d0) (hf : (f d0).id = d0.id) :
    (updateOne (idPred i) f s).1 = 1 ∧
    findOne (updateOne (idPred i) f s).2 i = some (f d0) := by
  induction s with
  | nil => simp [findOne] at h
  | cons e rest ih =>
    by_cases he : e.id = i
    · simp [findOne, he] at h
      subst h
      have : (f e).id = i := hf.trans he
      simp [updateOne, idPred, findOne, he, this]
    · simp [findOne, he] at h
      have := ih h
      simp [updateOne, idPred, findOne, he, this.1, this.2]

theorem updateOne_finalizePred_spec {note : Option String} {s : Store} {i : String}
    {d0 : Doc} (h : findOne s i = some d0) (hnf : ¬ d0.finalized = some true) :
    (updateOne (finalizePred i) (finalizeSet note) s).1 = 1 ∧
    findOne (updateOne (finalizePred i) (finalizeSet note) s).2 i =
      some (finalizeSet note d0) := by
  induction s with
  | nil => simp [findOne] at h
  | cons e rest ih =>
    by_cases he : e.id = i
    · simp [findOne, he] at h
      subst h
      have hp : finalizePred i e := ⟨he, hnf⟩
      have hid : (finalizeSet note e).id = i := by simp [finalizeSet, he]
      simp only [updateOne]
      rw [if_pos hp]
      simp [findOne, hid]
    · simp [findOne, he] at h
      have hp : ¬ finalizePred i e := fun hc => he hc.1
      have hrec := ih h
      simp only [updateOne]
      rw [if_neg hp]
      simp [findOne, he, hrec.1, hrec.2]

end Cloudemy

namespace Cloudemy

theorem finalize_submission_none {s : Store} {i : String} {note : Option String}
    (h : findOne s i = none) :
    finalize_submission s i note = (Except.error ⟨404, "submission not found"⟩, s) := by
  simp [finalize_submission, finalize_submission_at, h]

theorem finalize_submission_finalized {s : Store} {i : String} {note : Option String}
    {d : Doc} (h : findOne s i = some d) (hf : d.finalized = some true) :
    finalize_submission s i note = (Except.ok { submission_id := i }, s) := by
  simp [finalize_submission, finalize_submission_at, h, hf]

theorem finalize_submission_not_finalized {s : Store} {i : String}
    {note : Option String} {d : Doc} (h : findOne s i = some d)
    (hnf : ¬ d.finalized = some true) :
    finalize_submission s i note =
      (Except.ok { submission_id := i },
       (updateOne (finalizePred i) (finalizeSet note) s).2) := by
  have hspec := @updateOne_finalizePred_spec note s i d h hnf
  simp [finalize_submission, finalize_submission_at, h, hnf, hspec.1]

theorem post_result_token_fail {s : Store} {i : String} {payload : ResultIn}
    {tok : Option String} {secret : String} {now : Nat}
    (htok : pyTruthyStr tok = false ∨ ¬ tok = some secret) :
    post_result_callback s i payload tok secret now =
      (Except.error ⟨401, "invalid result token"⟩, s) := by
  simp only [post_result_callback]
  rw [if_pos htok]

theorem token_ok {secret : String} (hsec : secret ≠ "") :
    ¬ (pyTruthyStr (some secret) = false ∨ ¬ (some secret : Option String) = some secret) := by
  simp [pyTruthyStr, hsec]

theorem post_result_notfound {s : Store} {i : String} {payload : ResultIn}
    {secret : String} {now : Nat} (hsec : secret ≠ "") (h : findOne s i = none) :
    post_result_callback s i payload (some secret) secret now =
      (Except.error ⟨404, "submission not found"⟩, s) := by
  unfold post_result_callback
  rw [if_neg (token_ok hsec)]
  simp [h]

theorem post_result_finalized {s : Store} {i : String} {payload : ResultIn}
    {secret : String} {now : Nat} {d : Doc} (hsec : secret ≠ "")
    (h : findOne s i = some d)
    (hfin : d.finalized = some true ∨ d.status = some "FINALIZED") :
    post_result_callback s i payload (some secret) secret now =
      (Except.ok { ok := true, submission_id := i,
                   status := d.status.getD "FINALIZED" }, s) := by
  unfold post_result_callback
  rw [if_neg (token_ok hsec)]
  simp only [h]
  rw [if_pos hfin]

theorem post_result_badstatus {s : Store} {i : String} {payload : ResultIn}
    {secret : String} {now : Nat} {d : Doc} (hsec : secret ≠ "")
    (h : findOne s i = some d)
    (hnf : ¬ (d.finalized = some true ∨ d.status = some "FINALIZED"))
    (hbad : payload.status ≠ "COMPLETED" ∧ payload.status ≠ "FAILED" ∧
            payload.status ≠ "TIMEOUT") :
    post_result_callback s i payload (some secret) secret now =
      (Except.error ⟨400, "invalid status"⟩, s) := by
  unfold post_result_callback
  rw [if_neg (token_ok hsec)]
  simp only [h]
  rw [if_neg hnf, if_pos hbad]

theorem post_result_write {s : Store} {i : String} {payload : ResultIn}
    {secret : String} {now : Nat} {d : Doc} (hsec : secret ≠ "")
    (h : findOne s i = some d)
    (hnf : ¬ (d.finalized = some true ∨ d.status = some "FINALIZED"))
    (hst : payload.status = "COMPLETED" ∨ payload.status = "FAILED" ∨
           payload.status = "TIMEOUT") :
    post_result_callback s i payload (some secret) secret now =
      (Except.ok { ok := true, submission_id := i, status := payload.status },
       (updateOne (idPred i) (resultSet payload now) s).2) := by
  have hgood : ¬ (payload.status ≠ "COMPLETED" ∧ payload.status ≠ "FAILED" ∧
      payload.status ≠ "TIMEOUT") := by tauto
  unfold post_result_callback
  rw [if_neg (token_ok hsec)]
  simp only [h]
  rw [if_neg hnf, if_neg hgood]

end Cloudemy

namespace Cloudemy

theorem pyTruthyStr_some_false {t : String} : pyTruthyStr (some t) = false ↔ t = "" := by
  simp [pyTruthyStr]

theorem create_submission_store (s : Store) (q : List QueueMsg)
    (payload : SubmissionCreate) (newId : String) (dbFail pubFail : Bool) :
    (create_submission s q payload newId dbFail pubFail).2.1 = s ∨
    ((create_submission s q payload newId dbFail pubFail).2.1 =
        s ++ [createDoc payload newId] ∧ findOne s newId = none) ∨
    ((create_submission s q payload newId dbFail pubFail).2.1 =
        deleteOne (s ++ [createDoc payload newId]) newId ∧ findOne s newId = none) := by
  cases dbFail with
  | true => exact Or.inl (by simp [create_submission])
  | false =>
    by_cases hs : (findOne s newId).isSome
    · have hins : insertOne s (createDoc payload newId) = none := by
        simp only [insertOne, createDoc]
        simp [hs]
      exact Or.inl (by simp [create_submission, hins])
    · have hnone : findOne s newId = none := by
        cases hh : findOne s newId with
        | none => rfl
        | some d => exact absurd (by simp [hh]) hs
      have hins : insertOne s (createDoc payload newId) =
          some (s ++ [createDoc payload newId]) := by
        simp only [insertOne, createDoc]
        simp [hnone]
      cases pubFail with
      | true =>
        exact Or.inr (Or.inr ⟨by simp [create_submission, hins], hnone⟩)
      | false =>
        exact Or.inr (Or.inl ⟨by simp [create_submission, hins], hnone⟩)

theorem inv_append_createDoc {s : Store} {payload : SubmissionCreate}
    {newId : String} (h : Inv s) : Inv (s ++ [createDoc payload newId]) := by
  intro d hd hf
  rcases List.mem_append.1 hd with hd | hd
  · exact h d hd hf
  · simp at hd
    subst hd
    simp [createDoc] at hf

theorem applyOp_inv {secret : String} {s : Store} (op : Op) (h : Inv s) :
    Inv (applyOp secret s op) := by
  cases op with
  | create payload newId dbFail pubFail =>
    show Inv (create_submission s [] payload newId dbFail pubFail).2.1
    rcases create_submission_store s [] payload newId dbFail pubFail with
      hst | ⟨hst, _⟩ | ⟨hst, _⟩
    · rw [hst]; exact h
    · rw [hst]; exact inv_append_createDoc h
    · rw [hst]
      intro d hd hf
      exact inv_append_createDoc h d (mem_deleteOne hd) hf
  | get i => exact h
  | result i payload tok now =>
    show Inv (post_result_callback s i payload tok secret now).2
    by_cases htok : pyTruthyStr tok = false ∨ ¬ tok = some secret
    · rw [post_result_token_fail htok]; exact h
    · push_neg at htok
      obtain ⟨ht1, ht2⟩ := htok
      subst ht2
      have hsec : secret ≠ "" := fun he => ht1 (pyTruthyStr_some_false.2 he)
      cases hfd : findOne s i with
      | none => rw [post_result_notfound hsec hfd]; exact h
      | some d =>
        by_cases hfin : d.finalized = some true ∨ d.status = some "FINALIZED"
        · rw [post_result_finalized hsec hfd hfin]; exact h
        · by_cases hbad : payload.status ≠ "COMPLETED" ∧ payload.status ≠ "FAILED" ∧
              payload.status ≠ "TIMEOUT"
          · rw [post_result_badstatus hsec hfd hfin hbad]; exact h
          · have hst : payload.status = "COMPLETED" ∨ payload.status = "FAILED" ∨
                payload.status = "TIMEOUT" := by tauto
            rw [post_result_write hsec hfd hfin hst]
            intro d2 hd2 hf2
            rcases updateOne_idPred_mem hfd hd2 with hmem | heq
            · exact h d2 hmem hf2
            · subst heq
              simp only [resultSet] at hf2
              exact absurd (Or.inl hf2) hfin
  | finalize i note =>
    show Inv (finalize_submission s i note).2
    cases hfd : findOne s i with
    | none => rw [finalize_submission_none hfd]; exact h
    | some d =>
      by_cases hfin : d.finalized = some true
      · rw [finalize_submission_finalized hfd hfin]; exact h
      · rw [finalize_submission_not_finalized hfd hfin]
        intro d2 hd2 hf2
        rcases mem_updateOne hd2 with hmem | ⟨e, _, _, heq⟩
        · exact h d2 hmem hf2
        · subst heq
          simp [finalizeSet]

theorem applyOp_frozen {secret : String} {s : Store} (op : Op) {i : String} {d : Doc}
    (h : findOne s i = some d) (hf : d.finalized = some true) :
    findOne (applyOp secret s op) i = some d := by
  cases op with
  | create payload newId dbFail pubFail =>
    show findOne (create_submission s [] payload newId dbFail pubFail).2.1 i = some d
    rcases create_submission_store s [] payload newId dbFail pubFail with
      hst | ⟨hst, hfr⟩ | ⟨hst, hfr⟩
    · rw [hst]; exact h
    · rw [hst]; exact findOne_append_left _ h
    · have hne : i ≠ newId := by
        intro hc
        rw [hc, hfr] at h
        cases h
      rw [hst, findOne_deleteOne_ne hne]
      exact findOne_append_left _ h
  | get j => exact h
  | result j payload tok now =>
    show findOne (post_result_callback s j payload tok secret now).2 i = some d
    by_cases htok : pyTruthyStr tok = false ∨ ¬ tok = some secret
    · rw [post_result_token_fail htok]; exact h
    · push_neg at htok
      obtain ⟨ht1, ht2⟩ := htok
      subst ht2
      have hsec : secret ≠ "" := fun he => ht1 (pyTruthyStr_some_false.2 he)
      cases hfd : findOne s j with
      | none => rw [post_result_notfound hsec hfd]; exact h
      | some d2 =>
        by_cases hfin : d2.finalized = some true ∨ d2.status = some "FINALIZED"
        · rw [post_result_finalized hsec hfd hfin]; exact h
        · by_cases hbad : payload.status ≠ "COMPLETED" ∧ payload.status ≠ "FAILED" ∧
              payload.status ≠ "TIMEOUT"
          · rw [post_result_badstatus hsec hfd hfin hbad]; exact h
          · have hst : payload.status = "COMPLETED" ∨ payload.status = "FAILED" ∨
                payload.status = "TIMEOUT" := by tauto
            rw [post_result_write hsec hfd hfin hst]
            have hne : ¬ j = i := by
              intro hc
              subst hc
              rw [h] at hfd
              cases hfd
              exact hfin (Or.inl hf)
            show findOne (updateOne (idPred j) (resultSet payload now) s).2 i = some d
            rw [findOne_updateOne_ne (p := idPred j) (f := resultSet payload now)
              (fun e he => ⟨fun hc => hne (he ▸ hc), rfl⟩)]
            exact h
  | finalize j note =>
    show findOne (finalize_submission s j note).2 i = some d
    cases hfd : findOne s j with
    | none => rw [finalize_submission_none hfd]; exact h
    | some d2 =>
      by_cases hfin : d2.finalized = some true
      · rw [finalize_submission_finalized hfd hfin]; exact h
      · rw [finalize_submission_not_finalized hfd hfin]
        have hne : ¬ j = i := by
          intro hc
          subst hc
          rw [h] at hfd
          cases hfd
          exact hfin hf
        show findOne (updateOne (finalizePred j) (finalizeSet note) s).2 i = some d
        rw [findOne_updateOne_ne (p := finalizePred j) (f := finalizeSet note)
          (fun e he => ⟨fun hc => hne (he.1 ▸ hc), rfl⟩)]
        exact h

end Cloudemy

namespace Cloudemy

/-- C1: on a Create request, if the Store insert succeeds but the Queue
publish fails, the engine deletes the just-created document before
reporting 503 queue unavailable, so the store afterwards equals the
store before the call and no document with the new identifier remains,
and nothing was published; if the Store insert itself fails, 503
database unavailable is reported directly with the store and the queue
untouched, so no publish is attempted. -/
theorem create_rollback (s : Store) (q : List QueueMsg)
    (payload : SubmissionCreate) (newId : String)
    (hfresh : findOne s newId = none) :
    create_submission s q payload newId true false =
      (Except.error ⟨503, "database unavailable"⟩, s, q) ∧
    create_submission s q payload newId true true =
      (Except.error ⟨503, "database unavailable"⟩, s, q) ∧
    create_submission s q payload newId false true =
      (Except.error ⟨503, "queue unavailable"⟩, s, q) ∧
    findOne (create_submission s q payload newId false true).2.1 newId = none := by
  have hins : insertOne s (createDoc payload newId) =
      some (s ++ [createDoc payload newId]) := by
    simp only [insertOne, createDoc]
    simp [hfresh]
  have hdel : deleteOne (s ++ [createDoc payload newId]) newId = s :=
    deleteOne_append_fresh hfresh rfl
  refine ⟨by simp [create_submission], by simp [create_submission], ?_, ?_⟩
  · simp [create_submission, hins, hdel]
  · simp [create_submission, hins, hdel, hfresh]

/-- Witness for C1 at a concrete request against the empty store. -/
theorem create_rollback_witness :
    findOne ([] : Store) "s1" = none ∧
    create_submission [] [] { assignment_id := "a1", language := "python", code := "c" }
        "s1" false true =
      (Except.error ⟨503, "queue unavailable"⟩, ([] : Store), ([] : List QueueMsg)) :=
  ⟨rfl, (create_rollback [] []
    { assignment_id := "a1", language := "python", code := "c" } "s1" rfl).2.2.1⟩

/-- C9: Get is a pure read (its type returns no store): an unknown
identifier yields 404, an existing document yields its view, and the
view of a document lacking a stored metrics sub-field has the
zero-valued default metrics. -/
theorem get_submission_pure (s : Store) (i : String) :
    (findOne s i = none →
      get_submission s i = Except.error ⟨404, "submission not found"⟩) ∧
    (∀ d, findOne s i = some d → get_submission s i = Except.ok (doc_to_out d)) ∧
    (∀ d : Doc, d.metrics = none →
      (doc_to_out d).metrics = { timeMs := 0, memoryMB := 0 }) := by
  refine ⟨fun h => by simp [get_submission, h],
    fun d h => by simp [get_submission, h],
    fun d h => by simp [doc_to_out, h, default_metrics]⟩

/-- Witness for C9 at a stored document without a metrics field. -/
theorem get_submission_pure_witness :
    get_submission [{ id := "s1", status := some "QUEUED" }] "s1" =
      Except.ok (doc_to_out { id := "s1", status := some "QUEUED" }) ∧
    (doc_to_out { id := "s1", status := some "QUEUED" }).metrics =
      { timeMs := 0, memoryMB := 0 } :=
  ⟨(get_submission_pure [{ id := "s1", status := some "QUEUED" }] "s1").2.1 _ rfl,
   (get_submission_pure [] "s1").2.2 _ rfl⟩

/-- C10: Finalize succeeds on a submission still in status QUEUED: the
conditional write checks only the finalized flag, so the document moves
directly to FINALIZED with every other field (score, fail_tags,
feedback and the rest) unchanged. -/
theorem finalize_from_queued (s : Store) (i : String) (note : Option String)
    (d : Doc) (h : findOne s i = some d) (hq : d.status = some "QUEUED")
    (hnf : ¬ d.finalized = some true) :
    (finalize_submission s i note).1 =
      Except.ok { submission_id := i, status := "FINALIZED", finalized := true } ∧
    findOne (finalize_submission s i note).2 i =
      some { d with status := some "FINALIZED", finalized := some true,
                    finalize_note := some note } := by
  rw [finalize_submission_not_finalized h hnf]
  have hspec := @updateOne_finalizePred_spec note s i d h hnf
  exact ⟨rfl, hspec.2⟩

/-- Witness for C10 on a freshly created QUEUED document with score 0
and empty results. -/
theorem finalize_from_queued_witness :
    (finalize_submission
      [createDoc { assignment_id := "a1", language := "python", code := "c" } "s1"]
      "s1" (some "ok")).1 =
      Except.ok { submission_id := "s1", status := "FINALIZED", finalized := true } ∧
    findOne (finalize_submission
      [createDoc { assignment_id := "a1", language := "python", code := "c" } "s1"]
      "s1" (some "ok")).2 "s1" =
      some { createDoc { assignment_id := "a1", language := "python", code := "c" } "s1"
              with status := some "FINALIZED", finalized := some true,
                   finalize_note := some (some "ok") } :=
  finalize_from_queued _ "s1" (some "ok") _ rfl rfl (by decide)

end Cloudemy

namespace Cloudemy

/-- C2: a Result call with a correct token on a finalized submission
(finalized true or status FINALIZED) returns success describing the
current state and leaves the whole store, hence every stored field,
unchanged; it never errors for such a submission, whatever the payload. -/
theorem result_noop_after_finalize (s : Store) (i : String) (payload : ResultIn)
    (secret : String) (now : Nat) (d : Doc)
    (h : findOne s i = some d)
    (hfin : d.finalized = some true ∨ d.status = some "FINALIZED")
    (hsec : secret ≠ "") :
    post_result_callback s i payload (some secret) secret now =
      (Except.ok { ok := true, submission_id := i,
                   status := d.status.getD "FINALIZED" }, s) :=
  post_result_finalized hsec h hfin

/-- Witness for C2 on a finalized stored document and an arbitrary
COMPLETED payload. -/
theorem result_noop_after_finalize_witness :
    post_result_callback
      [{ id := "s1", status := some "FINALIZED", finalized := some true,
         score := some 95 }] "s1"
      { status := "COMPLETED", score := 10 } (some "secret") "secret" 7 =
      (Except.ok { ok := true, submission_id := "s1", status := "FINALIZED" },
       [{ id := "s1", status := some "FINALIZED", finalized := some true,
          score := some 95 }]) :=
  result_noop_after_finalize
    [{ id := "s1", status := some "FINALIZED", finalized := some true,
       score := some 95 }] "s1" { status := "COMPLETED", score := 10 } "secret" 7
    { id := "s1", status := some "FINALIZED", finalized := some true,
      score := some 95 } rfl (Or.inl rfl) (by decide)

/-- C6: a Result call with a correct token on an existing non-finalized
submission and an accepted outcome status overwrites exactly status,
score, fail_tags, feedback, metrics and updated_at with the payload
values, leaving id, user_id, assignment_id, language, code, finalized,
finalize_note and created_at unchanged. -/
theorem result_overwrites (s : Store) (i : String) (payload : ResultIn)
    (secret : String) (now : Nat) (d : Doc)
    (h : findOne s i = some d)
    (hnf : ¬ (d.finalized = some true ∨ d.status = some "FINALIZED"))
    (hst : payload.status = "COMPLETED" ∨ payload.status = "FAILED" ∨
           payload.status = "TIMEOUT")
    (hsec : secret ≠ "") :
    (post_result_callback s i payload (some secret) secret now).1 =
      Except.ok { ok := true, submission_id := i, status := payload.status } ∧
    findOne (post_result_callback s i payload (some secret) secret now).2 i =
      some { d with status := some payload.status, score := some payload.score,
                    fail_tags := some payload.fail_tags,
                    feedback := some payload.feedback,
                    metrics := some payload.metrics,
                    updated_at := some now } := by
  rw [post_result_write hsec h hnf hst]
  refine ⟨rfl, ?_⟩
  show findOne (updateOne (idPred i) (resultSet payload now) s).2 i = _
  have hspec := updateOne_idPred_spec (f := resultSet payload now) h rfl
  rw [hspec.2]
  simp [resultSet, pyOrZero_eq, pyOrList_eq]

/-- Witness for C6: the end-to-end COMPLETED payload of the test suite
against a freshly created document. -/
theorem result_overwrites_witness :
    (post_result_callback
      [createDoc { assignment_id := "a1", language := "python", code := "c" } "s1"]
      "s1"
      { status := "COMPLETED", score := 95, fail_tags := ["style"],
        feedback := [{ caseName := "case-1", message := "ok" }],
        metrics := { timeMs := 1234, memoryMB := 64 } }
      (some "secret") "secret" 7).1 =
      Except.ok { ok := true, submission_id := "s1", status := "COMPLETED" } ∧
    findOne (post_result_callback
      [createDoc { assignment_id := "a1", language := "python", code := "c" } "s1"]
      "s1"
      { status := "COMPLETED", score := 95, fail_tags := ["style"],
        feedback := [{ caseName := "case-1", message := "ok" }],
        metrics := { timeMs := 1234, memoryMB := 64 } }
      (some "secret") "secret" 7).2 "s1" =
      some { createDoc { assignment_id := "a1", language := "python", code := "c" } "s1"
              with status := some "COMPLETED", score := some 95,
                   fail_tags := some ["style"],
                   feedback := some [{ caseName := "case-1", message := "ok" }],
                   metrics := some { timeMs := 1234, memoryMB := 64 },
                   updated_at := some 7 } :=
  result_overwrites _ "s1" _ "secret" 7 _ rfl (by decide) (Or.inl rfl) (by decide)

/-- C7: the Result transition yields 401 whenever the token is absent or
differs from the secret, with the same outcome for every store (the
check precedes any store access) and the store unchanged; with a
correct token it yields 404 on an unknown identifier, and 400 on a
non-finalized submission when the payload status is not an accepted
outcome, each time leaving the store unchanged. -/
theorem result_guard_errors (s : Store) (i : String) (payload : ResultIn)
    (tok : Option String) (secret : String) (now : Nat) :
    ((tok = none ∨ ¬ tok = some secret) →
      post_result_callback s i payload tok secret now =
        (Except.error ⟨401, "invalid result token"⟩, s) ∧
      ∀ s2 : Store, (post_result_callback s2 i payload tok secret now).1 =
        Except.error ⟨401, "invalid result token"⟩) ∧
    (secret ≠ "" → findOne s i = none →
      post_result_callback s i payload (some secret) secret now =
        (Except.error ⟨404, "submission not found"⟩, s)) ∧
    (∀ d, secret ≠ "" → findOne s i = some d →
      ¬ (d.finalized = some true ∨ d.status = some "FINALIZED") →
      payload.status ≠ "COMPLETED" ∧ payload.status ≠ "FAILED" ∧
        payload.status ≠ "TIMEOUT" →
      post_result_callback s i payload (some secret) secret now =
        (Except.error ⟨400, "invalid status"⟩, s)) := by
  refine ⟨fun htok => ?_, fun hsec h => post_result_notfound hsec h,
    fun d hsec h hnf hbad => post_result_badstatus hsec h hnf hbad⟩
  have hcond : pyTruthyStr tok = false ∨ ¬ tok = some secret := by
    rcases htok with h1 | h1
    · subst h1; exact Or.inl rfl
    · exact Or.inr h1
  exact ⟨post_result_token_fail hcond,
    fun s2 => by rw [post_result_token_fail hcond]⟩

/-- Witness for C7: missing token, unknown id, and rejected payload
status, each at a concrete input. -/
theorem result_guard_errors_witness :
    post_result_callback [{ id := "s1" }] "s1" { status := "COMPLETED" }
        none "secret" 0 =
      (Except.error ⟨401, "invalid result token"⟩, [{ id := "s1" }]) ∧
    post_result_callback [] "s1" { status := "COMPLETED" }
        (some "secret") "secret" 0 =
      (Except.error ⟨404, "submission not found"⟩, ([] : Store)) ∧
    post_result_callback [{ id := "s1" }] "s1" { status := "WEIRD" }
        (some "secret") "secret" 0 =
      (Except.error ⟨400, "invalid status"⟩, [{ id := "s1" }]) :=
  ⟨((result_guard_errors [{ id := "s1" }] "s1" { status := "COMPLETED" }
      none "secret" 0).1 (Or.inl rfl)).1,
   (result_guard_errors [] "s1" { status := "COMPLETED" }
      (some "secret") "secret" 0).2.1 (by decide) rfl,
   (result_guard_errors [{ id := "s1" }] "s1" { status := "WEIRD" }
      (some "secret") "secret" 0).2.2 _ (by decide) rfl (by decide) (by decide)⟩

end Cloudemy

namespace Cloudemy

/-- C4: calling Finalize twice in sequence on an existing submission
yields finalized true and status FINALIZED in both responses, and the
second call performs no store mutation at all, so the finalize_note and
updated_at values present after the first call are left unchanged. -/
theorem finalize_idempotent (s : Store) (i : String) (note1 note2 : Option String)
    (d : Doc) (h : findOne s i = some d) :
    (finalize_submission s i note1).1 =
      Except.ok { submission_id := i, status := "FINALIZED", finalized := true } ∧
    (finalize_submission (finalize_submission s i note1).2 i note2).1 =
      Except.ok { submission_id := i, status := "FINALIZED", finalized := true } ∧
    (finalize_submission (finalize_submission s i note1).2 i note2).2 =
      (finalize_submission s i note1).2 := by
  by_cases hf : d.finalized = some true
  · have h1 : finalize_submission s i note1 = (Except.ok { submission_id := i }, s) :=
      finalize_submission_finalized h hf
    have h2 : finalize_submission s i note2 = (Except.ok { submission_id := i }, s) :=
      finalize_submission_finalized h hf
    refine ⟨by simp [h1], by simp [h1, h2], by simp [h1, h2]⟩
  · have h1 : finalize_submission s i note1 =
        (Except.ok { submission_id := i },
         (updateOne (finalizePred i) (finalizeSet note1) s).2) :=
      finalize_submission_not_finalized h hf
    have hspec := @updateOne_finalizePred_spec note1 s i d h hf
    have h2 : finalize_submission
        (updateOne (finalizePred i) (finalizeSet note1) s).2 i note2 =
        (Except.ok { submission_id := i },
         (updateOne (finalizePred i) (finalizeSet note1) s).2) :=
      finalize_submission_finalized hspec.2 rfl
    refine ⟨by simp [h1], by simp [h1, h2], by simp [h1, h2]⟩

/-- Witness for C4 on a freshly created document with two different notes. -/
theorem finalize_idempotent_witness :
    (finalize_submission
      [createDoc { assignment_id := "a1", language := "python", code := "c" } "s1"]
      "s1" (some "n1")).1 =
      Except.ok { submission_id := "s1", status := "FINALIZED", finalized := true } ∧
    (finalize_submission (finalize_submission
      [createDoc { assignment_id := "a1", language := "python", code := "c" } "s1"]
      "s1" (some "n1")).2 "s1" (some "n2")).1 =
      Except.ok { submission_id := "s1", status := "FINALIZED", finalized := true } ∧
    (finalize_submission (finalize_submission
      [createDoc { assignment_id := "a1", language := "python", code := "c" } "s1"]
      "s1" (some "n1")).2 "s1" (some "n2")).2 =
    (finalize_submission
      [createDoc { assignment_id := "a1", language := "python", code := "c" } "s1"]
      "s1" (some "n1")).2 :=
  finalize_idempotent
    [createDoc { assignment_id := "a1", language := "python", code := "c" } "s1"]
    "s1" (some "n1") (some "n2")
    (createDoc { assignment_id := "a1", language := "python", code := "c" } "s1")
    rfl

/-- C3: on an existing, not-yet-finalized submission the finalize
handler issues the single conditional write with condition finalizePred
(finalized not true) and mutation finalizeSet (status FINALIZED,
finalized true, finalize_note), the store afterwards being exactly that
write's result; if the write matched zero documents the handler
re-reads, returning the idempotent success when the document is now
finalized and a 409 conflict when it is not; on a nonzero match it
returns success.  The read and write snapshots are separated so the
concurrent zero-match branch is reachable. -/
theorem finalize_conditional_write (sRead sWrite : Store) (i : String)
    (note : Option String) (d : Doc)
    (hr : findOne sRead i = some d) (hnf : ¬ d.finalized = some true) :
    (finalize_submission_at sRead sWrite i note).2 =
      (updateOne (finalizePred i) (finalizeSet note) sWrite).2 ∧
    ((updateOne (finalizePred i) (finalizeSet note) sWrite).1 ≠ 0 →
      (finalize_submission_at sRead sWrite i note).1 =
        Except.ok { submission_id := i, status := "FINALIZED", finalized := true }) ∧
    ((updateOne (finalizePred i) (finalizeSet note) sWrite).1 = 0 →
      ∀ d2, findOne (updateOne (finalizePred i) (finalizeSet note) sWrite).2 i =
          some d2 →
        (d2.finalized = some true →
          (finalize_submission_at sRead sWrite i note).1 =
            Except.ok { submission_id := i, status := "FINALIZED",
                        finalized := true }) ∧
        (¬ d2.finalized = some true →
          (finalize_submission_at sRead sWrite i note).1 =
            Except.error ⟨409, "finalize conflict"⟩)) := by
  have hbase : finalize_submission_at sRead sWrite i note =
      (if (updateOne (finalizePred i) (finalizeSet note) sWrite).1 = 0 then
        match findOne (updateOne (finalizePred i) (finalizeSet note) sWrite).2 i with
        | none => (Except.error ⟨404, "submission not found"⟩,
                   (updateOne (finalizePred i) (finalizeSet note) sWrite).2)
        | some d2 =>
          if d2.finalized = some true then
            (Except.ok { submission_id := i },
             (updateOne (finalizePred i) (finalizeSet note) sWrite).2)
          else
            (Except.error ⟨409, "finalize conflict"⟩,
             (updateOne (finalizePred i) (finalizeSet note) sWrite).2)
      else
        (Except.ok { submission_id := i },
         (updateOne (finalizePred i) (finalizeSet note) sWrite).2)) := by
    simp only [finalize_submission_at, hr]
    rw [if_neg hnf]
  rw [hbase]
  by_cases hz : (updateOne (finalizePred i) (finalizeSet note) sWrite).1 = 0
  · cases hfd : findOne (updateOne (finalizePred i) (finalizeSet note) sWrite).2 i with
    | none =>
      refine ⟨by simp [hz, hfd], fun hnz => absurd hz hnz, fun _ d2 hd2 => ?_⟩
      exact Option.noConfusion hd2
    | some e =>
      refine ⟨?_, fun hnz => absurd hz hnz, fun _ d2 hd2 => ?_⟩
      · by_cases hef : e.finalized = some true <;> simp [hz, hfd, hef]
      · injection hd2 with he
        subst he
        constructor
        · intro h2
          simp [hz, hfd, h2]
        · intro h2
          simp [hz, hfd, h2]
  · exact ⟨by simp [hz], fun _ => by simp [hz], fun hzz => absurd hzz hz⟩

/-- Witness for C3: the read sees a non-finalized document while a
concurrent finalize has already committed in the write snapshot, so the
conditional write matches zero documents and the re-read takes the
idempotent success branch. -/
theorem finalize_conditional_write_witness :
    (finalize_submission_at [{ id := "s1", finalized := some false }]
        [{ id := "s1", finalized := some true }] "s1" none).1 =
      Except.ok { submission_id := "s1", status := "FINALIZED",
                  finalized := true } ∧
    (finalize_submission_at [{ id := "s1", finalized := some false }]
        [{ id := "s1", finalized := some true }] "s1" none).2 =
      [{ id := "s1", finalized := some true }] := by
  have h := finalize_conditional_write [{ id := "s1", finalized := some false }]
    [{ id := "s1", finalized := some true }] "s1" none
    { id := "s1", finalized := some false } rfl (by decide)
  refine ⟨(h.2.2 (by decide) { id := "s1", finalized := some true } (by decide)).1 rfl,
    h.1.trans (by decide)⟩

/-- C5: over any sequence of Create, Get, Result and Finalize operations
from a store satisfying the invariant, the invariant that finalized
implies status FINALIZED is preserved, and a document that is finalized
is never changed again by any operation: every field is frozen. -/
theorem finalized_terminal_invariant (secret : String) (ops : List Op) (s : Store)
    (hInv : Inv s) :
    Inv (applyOps secret ops s) ∧
    ∀ i d, findOne s i = some d → d.finalized = some true →
      findOne (applyOps secret ops s) i = some d := by
  induction ops generalizing s with
  | nil => exact ⟨hInv, fun i d h _ => h⟩
  | cons op rest ih =>
    have h1 := @applyOp_inv secret s op hInv
    refine ⟨(ih _ h1).1, fun i d h hf => ?_⟩
    exact (ih _ h1).2 i d (@applyOp_frozen secret s op i d h hf) hf

/-- Witness for C5: a finalized document survives a finalize and a
result callback unchanged, and the invariant still holds. -/
theorem finalized_terminal_invariant_witness :
    Inv (applyOps "secret"
      [Op.finalize "s1" (some "n"),
       Op.result "s1" { status := "COMPLETED", score := 10 } (some "secret") 7]
      [{ id := "s1", status := some "FINALIZED", finalized := some true }]) ∧
    findOne (applyOps "secret"
      [Op.finalize "s1" (some "n"),
       Op.result "s1" { status := "COMPLETED", score := 10 } (some "secret") 7]
      [{ id := "s1", status := some "FINALIZED", finalized := some true }]) "s1" =
      some { id := "s1", status := some "FINALIZED", finalized := some true } := by
  have h := finalized_terminal_invariant "secret"
    [Op.finalize "s1" (some "n"),
     Op.result "s1" { status := "COMPLETED", score := 10 } (some "secret") 7]
    [{ id := "s1", status := some "FINALIZED", finalized := some true }]
    (by decide)
  exact ⟨h.1, h.2 "s1" _ rfl rfl⟩

/-- C8 (code bug evidence): the document built by create carries neither
created_at nor updated_at, and the finalize set-patch does not touch
updated_at either; only the result callback set-patch writes
updated_at.  This contradicts the documented data model, which gives
every submission document both timestamps and refreshes updated_at on
every mutating transition. -/
theorem timestamps_not_maintained :
    (createDoc { assignment_id := "assign-1", language := "python",
                 code := "print(1)" } "sub-1").created_at = none ∧
    (createDoc { assignment_id := "assign-1", language := "python",
                 code := "print(1)" } "sub-1").updated_at = none ∧
    (finalizeSet (some "ok")
      (createDoc { assignment_id := "assign-1", language := "python",
                   code := "print(1)" } "sub-1")).created_at = none ∧
    (finalizeSet (some "ok")
      (createDoc { assignment_id := "assign-1", language := "python",
                   code := "print(1)" } "sub-1")).updated_at = none ∧
    (resultSet { status := "COMPLETED" } 7
      (createDoc { assignment_id := "assign-1", language := "python",
                   code := "print(1)" } "sub-1")).updated_at = some 7 :=
  ⟨rfl, rfl, rfl, rfl, rfl⟩

end Cloudemy
